import Mathlib

/-!
Shallow embedding of the ShopZone order backend (src/server.js): the four
in-memory collections (orders, products, banners, order-id counter), the
four backing JSON files, the startup recovery routine, and the mutating
HTTP routes. File contents are represented in parsed form (an absent or
unparsable file is `none`); the `ok` parameters of the save functions model
whether the underlying writeFile call succeeds.
-/

/-- JavaScript values as far as the server manipulates them: JSON values plus
the undefined value produced by property access on a missing key. Numbers are
modelled as integers (every number the routes inspect is one). -/
inductive JsValue where
  | undefined : JsValue
  | null : JsValue
  | bool (b : Bool) : JsValue
  | num (n : Int) : JsValue
  | str (s : String) : JsValue
  | arr (elems : List JsValue) : JsValue
  | obj (fields : List (String × JsValue)) : JsValue
deriving Repr

/-- Whether a value is the undefined value. -/
def JsValue.isUndefined : JsValue → Bool
  | .undefined => true
  | _ => false

/-- Strict equality v === n against a number: true exactly for the same
number. This is the comparison o.id === parseInt(req.params.id) of the
by-id routes. -/
def JsValue.isNum (v : JsValue) (n : Int) : Bool :=
  match v with
  | .num m => m == n
  | _ => false

/-- JavaScript truthiness, as used by the validation check on line 162, the
or-else defaults, and the update guard on line 242. -/
def JsValue.truthy : JsValue → Bool
  | .undefined => false
  | .null => false
  | .bool b => b
  | .num n => n != 0
  | .str s => s != ""
  | .arr _ => true
  | .obj _ => true

/-- First-match lookup of a key among the properties of an object, the
undefined value when the key is absent. -/
def lookupField : List (String × JsValue) → String → JsValue
  | [], _ => .undefined
  | (k1, v) :: rest, k => if k1 = k then v else lookupField rest k

/-- Property access v.k: lookup on an object, undefined elsewhere. (The routes
only access properties of values already checked truthy, so the throwing cases
of null and undefined are never reached.) -/
def JsValue.getField (v : JsValue) (k : String) : JsValue :=
  match v with
  | .obj fields => lookupField fields k
  | _ => .undefined

/-- The JavaScript or-else expression a || b: b exactly when a is falsy. -/
def JsValue.orElse (a b : JsValue) : JsValue := if a.truthy then a else b

/-- Assignment to a key in a property list: replaces the value at the key in
place when the key is present (keys of a JavaScript object are unique),
appends the property otherwise. -/
def setFields : List (String × JsValue) → String → JsValue → List (String × JsValue)
  | [], k, x => [(k, x)]
  | (k1, v) :: rest, k, x =>
    if k1 = k then (k1, x) :: rest else (k1, v) :: setFields rest k x

/-- JavaScript property assignment o.k = x on an object: updates the key in
place when present, appends it otherwise; a non-object is left unchanged
(sloppy-mode assignment to a primitive is a silent no-op). -/
def JsValue.setField (v : JsValue) (k : String) (x : JsValue) : JsValue :=
  match v with
  | .obj fields => .obj (setFields fields k x)
  | other => other

mutual
/-- One JSON.stringify-then-parse round trip: object properties holding
undefined are dropped, undefined array elements become null, everything else
survives unchanged. This is what lands in a backing file when a value is
persisted. -/
def JsValue.normalize : JsValue → JsValue
  | .undefined => .null
  | .null => .null
  | .bool b => .bool b
  | .num n => .num n
  | .str s => .str s
  | .arr xs => .arr (normalizeList xs)
  | .obj fs => .obj (normalizeFields fs)

/-- JsValue.normalize over the elements of an array. -/
def normalizeList : List JsValue → List JsValue
  | [] => []
  | x :: xs => x.normalize :: normalizeList xs

/-- JsValue.normalize over object properties, dropping undefined ones. -/
def normalizeFields : List (String × JsValue) → List (String × JsValue)
  | [] => []
  | (k, v) :: fs =>
    (if v.isUndefined then [] else [(k, v.normalize)]) ++ normalizeFields fs
end

/-- The in-memory cache of the server (lines 20-23 declare the four module
level variables together with their initial values). -/
structure ServerState where
  orders : List JsValue
  products : JsValue
  banners : JsValue
  orderIdCounter : Int
deriving Repr

/-- The four backing files under the data directory, each held in parsed
form: none models a file that is absent or whose content JSON.parse rejects
(both land in the same catch). The orders file, when parsable, is assumed to
hold an array, as every file the server itself writes does. -/
structure FileSystem where
  ordersFile : Option (List JsValue)
  productsFile : Option JsValue
  bannersFile : Option JsValue
  counterFile : Option JsValue
deriving Repr

/-- Module level initial values of the cache (lines 20-23): empty orders,
empty products and banners, counter 1001. -/
def initialState : ServerState :=
  { orders := [], products := .arr [], banners := .arr [], orderIdCounter := 1001 }

/-- A storage location where none of the four backing files exist. -/
def emptyFS : FileSystem :=
  { ordersFile := none, productsFile := none, bannersFile := none, counterFile := none }

/-- saveOrders (lines 84-92): writes JSON.stringify(orders) to orders.json and
reports true, or catches the write error and reports false leaving the file
as it was. The ok flag models whether the underlying writeFile succeeds. -/
def saveOrders (ok : Bool) (st : ServerState) (fs : FileSystem) : Bool × FileSystem :=
  if ok then (true, { fs with ordersFile := some (normalizeList st.orders) })
  else (false, fs)

/-- saveProducts (lines 94-102), modelled like saveOrders. -/
def saveProducts (ok : Bool) (st : ServerState) (fs : FileSystem) : Bool × FileSystem :=
  if ok then (true, { fs with productsFile := some st.products.normalize })
  else (false, fs)

/-- saveBanners (lines 104-112), modelled like saveOrders. -/
def saveBanners (ok : Bool) (st : ServerState) (fs : FileSystem) : Bool × FileSystem :=
  if ok then (true, { fs with bannersFile := some st.banners.normalize })
  else (false, fs)

/-- saveCounter (lines 114-122): writes the single-key object holding
orderIdCounter. -/
def saveCounter (ok : Bool) (st : ServerState) (fs : FileSystem) : Bool × FileSystem :=
  if ok then
    (true, { fs with counterFile := some (.obj [("orderIdCounter", .num st.orderIdCounter)]) })
  else (false, fs)

/-- The counter load of lines 70-71: counterObj.orderIdCounter || 1001. A
missing or falsy field (undefined, 0) gives 1001. A truthy non-numeric field
would make the counter a non-number in JavaScript and poison the later
increment; such a hand-edited file is outside this model and mapped to 1001. -/
def loadCounter (j : JsValue) : Int :=
  match j.getField "orderIdCounter" with
  | .num n => if n == 0 then 1001 else n
  | _ => 1001

/-- The outcome of initializeStorage: the cache, the files, and whether a
ReferenceError escaped to the outer catch of line 78. -/
structure InitResult where
  state : ServerState
  fs : FileSystem
  refError : Bool
deriving Repr

/-- initializeStorage (lines 26-81), run once at process start from
initialState. Each collection is loaded from its file; on a load failure the
orders branch resets to [] and persists (ignoring the save result), while the
products and banners branches call getDefaultProducts and getDefaultBanners,
functions that are defined nowhere in the repository: the resulting
ReferenceError is raised inside the inner catch, escapes to the outer catch,
and aborts initialization there, so the remaining branches never run and the
affected variables keep their prior values; refError records this. The
counter branch on load failure persists the current counter value. The two ok
flags model the write outcomes of the saveOrders and saveCounter calls in the
default branches. -/
def initializeStorage (fs : FileSystem) (okOrdersSave okCounterSave : Bool) : InitResult :=
  let st0 := initialState
  let ordersStep : List JsValue × FileSystem :=
    match fs.ordersFile with
    | some loaded => (loaded, fs)
    | none => ([], (saveOrders okOrdersSave { st0 with orders := [] } fs).2)
  let st1 := { st0 with orders := ordersStep.1 }
  let fs1 := ordersStep.2
  match fs1.productsFile with
  | none => { state := st1, fs := fs1, refError := true }
  | some p =>
    let st2 := { st1 with products := p }
    match fs1.bannersFile with
    | none => { state := st2, fs := fs1, refError := true }
    | some b =>
      let st3 := { st2 with banners := b }
      match fs1.counterFile with
      | some c =>
        { state := { st3 with orderIdCounter := loadCounter c }, fs := fs1, refError := false }
      | none =>
        { state := st3, fs := (saveCounter okCounterSave st3 fs1).2, refError := false }

/-- GET /api/data (lines 127-129): the products and banners caches. -/
def listCatalog (st : ServerState) : JsValue × JsValue := (st.products, st.banners)

/-- GET /api/orders (lines 152-154): the orders cache. -/
def listOrders (st : ServerState) : List JsValue := st.orders

/-- GET /api/orders/:id (lines 218-227): the first order whose id strictly
equals the parsed path parameter, or a not-found signal. -/
def getOrder (st : ServerState) (idParam : Int) : Option JsValue :=
  st.orders.find? (fun o => (o.getField "id").isNum idParam)

/-- The required-field validation of POST /api/orders (line 162): the request
is rejected when customer, address or items is falsy. -/
def validPayload (body : JsValue) : Bool :=
  (body.getField "customer").truthy && (body.getField "address").truthy
    && (body.getField "items").truthy

/-- The order object literal of lines 169-191. The argument now stands for
Date.now(); the orderDate ISO rendering of the same instant is kept abstract
as its decimal form, since no route inspects it. -/
def mkOrder (counter : Int) (now : Int) (orderData : JsValue) : JsValue :=
  let customer := orderData.getField "customer"
  let address := orderData.getField "address"
  .obj [
    ("id", .num counter),
    ("orderId", .str ("ORD-" ++ toString now)),
    ("customer", .obj [
      ("fullName", customer.getField "fullName"),
      ("phone", customer.getField "phone"),
      ("email", (customer.getField "email").orElse .null)]),
    ("address", .obj [
      ("houseNo", address.getField "houseNo"),
      ("street", address.getField "street"),
      ("city", address.getField "city"),
      ("state", address.getField "state"),
      ("pincode", address.getField "pincode"),
      ("landmark", (address.getField "landmark").orElse .null)]),
    ("items", orderData.getField "items"),
    ("totalAmount", orderData.getField "totalAmount"),
    ("paymentMethod", (orderData.getField "paymentMethod").orElse (.str "COD")),
    ("notes", (orderData.getField "notes").orElse (.str "")),
    ("status", .str "Pending"),
    ("orderDate", .str (toString now))]

/-- What POST /api/orders answers: 400 on failed validation, 201 with the
created order when both saves succeed, 400 with only an error message (and no
order) when a save fails and the route throws into its catch. -/
inductive CreateResult where
  | validationError : CreateResult
  | created (order : JsValue) : CreateResult
  | saveFailed : CreateResult
deriving Repr

/-- The state, files and response after POST /api/orders. -/
structure CreateOut where
  state : ServerState
  fs : FileSystem
  result : CreateResult
deriving Repr

/-- POST /api/orders (lines 157-215). After validation the order is built
with the current counter (which the id allocation increments), pushed, and
Promise.all([saveOrders(), saveCounter()]) runs; the ok flags model the two
write outcomes. When either save reports false the route throws, answering
400 without the order, but the pushed order and the incremented counter are
kept. -/
def createOrder (st : ServerState) (fs : FileSystem) (body : JsValue) (now : Int)
    (okOrders okCounter : Bool) : CreateOut :=
  if !(validPayload body) then
    { state := st, fs := fs, result := .validationError }
  else
    let newOrder := mkOrder st.orderIdCounter now body
    let st1 : ServerState :=
      { st with
        orders := st.orders ++ [newOrder]
        orderIdCounter := st.orderIdCounter + 1 }
    let s1 := saveOrders okOrders st1 fs
    let s2 := saveCounter okCounter st1 s1.2
    if s1.1 && s2.1 then { state := st1, fs := s2.2, result := .created newOrder }
    else { state := st1, fs := s2.2, result := .saveFailed }

/-- The per-order field update of PUT /api/orders/:id (lines 242-243): status
is assigned only when the status in the body is truthy; notes is assigned
whenever the body carries a notes property that is not undefined. -/
def applyOrderUpdate (body : JsValue) (o : JsValue) : JsValue :=
  let o1 :=
    if (body.getField "status").truthy then o.setField "status" (body.getField "status") else o
  if !(body.getField "notes").isUndefined then o1.setField "notes" (body.getField "notes") else o1

/-- Replaces the first element satisfying p by its image under f, returning
the new list and that image; none when no element satisfies p. This is the
in-place mutation of the object that orders.find returned. -/
def updateFirst (p : JsValue → Bool) (f : JsValue → JsValue) :
    List JsValue → Option (List JsValue × JsValue)
  | [] => none
  | o :: rest =>
    if p o then some (f o :: rest, f o)
    else
      match updateFirst p f rest with
      | none => none
      | some (rest1, u) => some (o :: rest1, u)

/-- Removes the first element satisfying p (the splice of line 271); none
when no element satisfies p. -/
def removeFirst (p : JsValue → Bool) : List JsValue → Option (List JsValue)
  | [] => none
  | o :: rest =>
    if p o then some rest
    else
      match removeFirst p rest with
      | none => none
      | some rest1 => some (o :: rest1)

/-- What PUT /api/orders/:id answers: 404, or 200 with the updated order. -/
inductive UpdateResult where
  | notFound : UpdateResult
  | updated (order : JsValue) : UpdateResult
deriving Repr

/-- The state, files and response after PUT /api/orders/:id. -/
structure UpdateOut where
  state : ServerState
  fs : FileSystem
  result : UpdateResult
deriving Repr

/-- PUT /api/orders/:id (lines 230-257). The saveOrders result is awaited but
never checked: the route answers success even when the write fails. -/
def updateOrder (st : ServerState) (fs : FileSystem) (idParam : Int) (body : JsValue)
    (okSave : Bool) : UpdateOut :=
  match updateFirst (fun o => (o.getField "id").isNum idParam) (applyOrderUpdate body)
      st.orders with
  | none => { state := st, fs := fs, result := .notFound }
  | some (orders1, u) =>
    let st1 := { st with orders := orders1 }
    { state := st1, fs := (saveOrders okSave st1 fs).2, result := .updated u }

/-- What DELETE /api/orders/:id answers: 404, or 200. -/
inductive DeleteResult where
  | notFound : DeleteResult
  | deleted : DeleteResult
deriving Repr

/-- The state, files and response after DELETE /api/orders/:id. -/
structure DeleteOut where
  state : ServerState
  fs : FileSystem
  result : DeleteResult
deriving Repr

/-- DELETE /api/orders/:id (lines 260-288). The counter is not touched. The
saveOrders result is not checked. -/
def deleteOrder (st : ServerState) (fs : FileSystem) (idParam : Int)
    (okSave : Bool) : DeleteOut :=
  match removeFirst (fun o => (o.getField "id").isNum idParam) st.orders with
  | none => { state := st, fs := fs, result := .notFound }
  | some orders1 =>
    let st1 := { st with orders := orders1 }
    { state := st1, fs := (saveOrders okSave st1 fs).2, result := .deleted }

/-- The state, files and response after POST /api/data. -/
structure CatalogOut where
  state : ServerState
  fs : FileSystem
  success : Bool
deriving Repr

/-- POST /api/data (lines 132-149): wholesale replacement of products and
banners by req.body.products || [] and req.body.banners || [], then both
saves; success only when both report true, but the in-memory replacement
stands either way. -/
def replaceCatalog (st : ServerState) (fs : FileSystem) (body : JsValue)
    (okProducts okBanners : Bool) : CatalogOut :=
  let p := (body.getField "products").orElse (.arr [])
  let b := (body.getField "banners").orElse (.arr [])
  let st1 := { st with products := p, banners := b }
  let s1 := saveProducts okProducts st1 fs
  let s2 := saveBanners okBanners st1 s1.2
  { state := st1, fs := s2.2, success := s1.1 && s2.1 }

/-- One mutating request, with the write outcomes its handler will see. The
remaining routes are pure reads and do not touch the cache. -/
inductive Op where
  | create (body : JsValue) (now : Int) (okOrders okCounter : Bool) : Op
  | update (idParam : Int) (body : JsValue) (okSave : Bool) : Op
  | delete (idParam : Int) (okSave : Bool) : Op
  | replaceCat (body : JsValue) (okProducts okBanners : Bool) : Op

/-- Processing of one request by the single-threaded event loop. -/
def step (st : ServerState) (fs : FileSystem) : Op → ServerState × FileSystem
  | .create body now okO okC =>
    let out := createOrder st fs body now okO okC
    (out.state, out.fs)
  | .update idParam body ok =>
    let out := updateOrder st fs idParam body ok
    (out.state, out.fs)
  | .delete idParam ok =>
    let out := deleteOrder st fs idParam ok
    (out.state, out.fs)
  | .replaceCat body okP okB =>
    let out := replaceCatalog st fs body okP okB
    (out.state, out.fs)

/-- The ids handed out along a run, in order: each createOrder call that
passes validation allocates the current counter value as the id of the order
it builds (line 170), whether or not the following saves succeed. -/
def allocIds (st : ServerState) (fs : FileSystem) : List Op → List Int
  | [] => []
  | op :: ops =>
    let next := step st fs op
    match op with
    | .create body _ _ _ =>
      if validPayload body then st.orderIdCounter :: allocIds next.1 next.2 ops
      else allocIds next.1 next.2 ops
    | .update _ _ _ => allocIds next.1 next.2 ops
    | .delete _ _ => allocIds next.1 next.2 ops
    | .replaceCat _ _ _ => allocIds next.1 next.2 ops

/-- The largest id among the orders of a list, 0 when none carries a numeric
id. -/
def maxOrderId (orders : List JsValue) : Int :=
  orders.foldl
    (fun m o =>
      match o.getField "id" with
      | .num n => max m n
      | _ => m) 0

/-- The admin upload used in the concrete scenarios: one product and one
banner. -/
def catalogBody : JsValue :=
  .obj [("products", .arr [.str "p"]), ("banners", .arr [.str "b"])]

/-- The valid order submission of the specification scenario (customer,
address, items and totalAmount present, no paymentMethod). -/
def orderBody : JsValue :=
  .obj [
    ("customer", .obj [("fullName", .str "A"), ("phone", .str "1")]),
    ("address", .obj [("houseNo", .str "h"), ("street", .str "s"), ("city", .str "c"),
      ("state", .str "st"), ("pincode", .str "00")]),
    ("items", .arr [.obj [("sku", .str "x"), ("qty", .num 2)]]),
    ("totalAmount", .num 40)]

/-- A run from a fresh storage location: startup recovery, an admin catalog
upload (which is what first creates products.json and banners.json), then one
order creation whose counter write fails while the orders write succeeds. -/
def runBeforeRestart : CreateOut :=
  let r1 := initializeStorage emptyFS true true
  let c := replaceCatalog r1.state r1.fs catalogBody true true
  createOrder c.state c.fs orderBody 0 true false

/-- The recovery a restarted process performs on the files runBeforeRestart
left behind. -/
def restartScenario : InitResult :=
  initializeStorage runBeforeRestart.fs true true

/-- An update body carrying only a truthy status. -/
def shippedBody : JsValue := .obj [("status", .str "Shipped")]

/-- An order submission missing address and items. -/
def missingFieldBody : JsValue := .obj [("customer", .obj [("fullName", .str "A")])]

/-- The order of the one-order cache after the Shipped status update. -/
def shippedOrder : JsValue := applyOrderUpdate shippedBody (mkOrder 1001 0 orderBody)

/-- A cache holding exactly one order, created with id 1001 at counter
position 1001; the counter already advanced past it. -/
def oneOrderState : ServerState :=
  { orders := [mkOrder 1001 0 orderBody], products := .arr [], banners := .arr [],
    orderIdCounter := 1002 }

/-- A value whose id property strictly equals a number is an object: property
access on every other constructor yields undefined, which is not a number. -/
theorem JsValue.obj_of_getField_isNum {o : JsValue} {n : Int}
    (h : (o.getField "id").isNum n = true) : ∃ fields, o = .obj fields := by
  cases o <;> simp [JsValue.getField, JsValue.isNum] at h
  case obj fields => exact ⟨fields, rfl⟩

/-- Reading back the key just assigned yields the assigned value. -/
theorem lookupField_setFields_self (k : String) (x : JsValue) :
    ∀ l : List (String × JsValue), lookupField (setFields l k x) k = x := by
  intro l
  induction l with
  | nil => simp [setFields, lookupField]
  | cons a rest ih =>
    obtain ⟨ak, av⟩ := a
    by_cases hk : ak = k
    · simp [setFields, lookupField, hk]
    · simp [setFields, lookupField, hk, ih]

/-- Assignment to one key leaves every other key unchanged. -/
theorem lookupField_setFields_ne (k k1 : String) (x : JsValue) (hne : k1 ≠ k) :
    ∀ l : List (String × JsValue), lookupField (setFields l k x) k1 = lookupField l k1 := by
  intro l
  induction l with
  | nil =>
    have h2 : ¬ k = k1 := fun h => hne h.symm
    simp [setFields, lookupField, h2]
  | cons a rest ih =>
    obtain ⟨ak, av⟩ := a
    by_cases hk : ak = k
    · subst hk
      have h2 : ¬ ak = k1 := fun h => hne h.symm
      simp [setFields, lookupField, h2]
    · by_cases hk1 : ak = k1
      · simp [setFields, lookupField, hk, hk1, hne]
      · simp [setFields, lookupField, hk, hk1, ih]

/-- Property read after property write of the same key on an object. -/
theorem JsValue.getField_setField_self (fields : List (String × JsValue)) (k : String)
    (x : JsValue) : ((JsValue.obj fields).setField k x).getField k = x := by
  simpa [JsValue.setField, JsValue.getField] using lookupField_setFields_self k x fields

/-- Property read after property write of a different key, on any value. -/
theorem JsValue.getField_setField_ne (v : JsValue) (k k1 : String) (x : JsValue)
    (hne : k1 ≠ k) : (v.setField k x).getField k1 = v.getField k1 := by
  cases v <;> try rfl
  case obj fields =>
    simpa [JsValue.setField, JsValue.getField] using lookupField_setFields_ne k k1 x hne fields

/-- Property write keeps an object an object. -/
theorem JsValue.setField_obj (fields : List (String × JsValue)) (k : String) (x : JsValue) :
    ∃ gs, (JsValue.obj fields).setField k x = .obj gs :=
  ⟨setFields fields k x, rfl⟩

/-- The update of lines 242-243 touches no key other than status and notes. -/
theorem applyOrderUpdate_getField_other (body o : JsValue) (k : String)
    (h1 : k ≠ "status") (h2 : k ≠ "notes") :
    (applyOrderUpdate body o).getField k = o.getField k := by
  rw [applyOrderUpdate]
  by_cases c1 : (body.getField "status").truthy <;>
    by_cases c2 : (body.getField "notes").isUndefined <;>
      simp [c1, c2, JsValue.getField_setField_ne _ _ _ _ h1,
        JsValue.getField_setField_ne _ _ _ _ h2]

/-- The status after the update of lines 242-243: the status from the body
when that one is truthy, the old status otherwise. -/
theorem applyOrderUpdate_status (body : JsValue) (fields : List (String × JsValue)) :
    (applyOrderUpdate body (.obj fields)).getField "status"
      = if (body.getField "status").truthy then body.getField "status"
        else (JsValue.obj fields).getField "status" := by
  rw [applyOrderUpdate]
  by_cases c1 : (body.getField "status").truthy <;>
    by_cases c2 : (body.getField "notes").isUndefined
  · simp [c1, c2, JsValue.getField_setField_self]
  · obtain ⟨gs, hgs⟩ := JsValue.setField_obj fields "status" (body.getField "status")
    simp [c1, c2, hgs,
      JsValue.getField_setField_ne _ _ _ _ (by decide : "status" ≠ "notes"),
      hgs ▸ JsValue.getField_setField_self fields "status" (body.getField "status")]
  · simp [c1, c2]
  · simp [c1, c2, JsValue.getField_setField_ne _ _ _ _ (by decide : "status" ≠ "notes")]

/-- The notes after the update of lines 242-243: the notes from the body
whenever the body carries the property, including falsy values. -/
theorem applyOrderUpdate_notes (body : JsValue) (fields : List (String × JsValue)) :
    (applyOrderUpdate body (.obj fields)).getField "notes"
      = if (body.getField "notes").isUndefined then (JsValue.obj fields).getField "notes"
        else body.getField "notes" := by
  rw [applyOrderUpdate]
  by_cases c1 : (body.getField "status").truthy <;>
    by_cases c2 : (body.getField "notes").isUndefined
  · simp [c1, c2, JsValue.getField_setField_ne _ _ _ _ (by decide : "notes" ≠ "status")]
  · obtain ⟨gs, hgs⟩ := JsValue.setField_obj fields "status" (body.getField "status")
    simp [c1, c2, hgs, JsValue.getField_setField_self]
  · simp [c1, c2]
  · simp [c1, c2, JsValue.getField_setField_self]

/-- A successful updateFirst splits the list around the first match: the
prefix is untouched and match-free, the matched element is mapped, the
suffix is untouched. -/
theorem updateFirst_some (p : JsValue → Bool) (f : JsValue → JsValue) :
    ∀ l l1 : List JsValue, ∀ u : JsValue, updateFirst p f l = some (l1, u) →
      ∃ pre o post, l = pre ++ o :: post ∧ l1 = pre ++ f o :: post ∧ u = f o ∧
        p o = true ∧ ∀ x ∈ pre, p x = false := by
  intro l
  induction l with
  | nil => intro l1 u h; simp [updateFirst] at h
  | cons o rest ih =>
    intro l1 u h
    rw [updateFirst] at h
    by_cases hp : p o
    · rw [if_pos hp] at h
      obtain ⟨h1, h2⟩ := Prod.mk.injEq .. ▸ Option.some.inj h
      exact ⟨[], o, rest, by simp, by simp [h1.symm], h2.symm, hp, by simp⟩
    · rw [if_neg hp] at h
      cases hrec : updateFirst p f rest with
      | none => rw [hrec] at h; simp at h
      | some pr =>
        obtain ⟨rest1, u1⟩ := pr
        rw [hrec] at h
        simp only [Option.some.injEq, Prod.mk.injEq] at h
        obtain ⟨h1, h2⟩ := h
        obtain ⟨pre, o1, post, e1, e2, e3, e4, e5⟩ := ih rest1 u1 hrec
        refine ⟨o :: pre, o1, post, by simp [e1], by simp [← h1, e2], h2 ▸ e3, e4, ?_⟩
        intro x hx
        rcases List.mem_cons.mp hx with rfl | hx
        · simpa using hp
        · exact e5 x hx

/-- POST /api/orders advances the counter by one exactly when validation
passes, whatever the two write outcomes. -/
theorem createOrder_counter (st : ServerState) (fs : FileSystem) (body : JsValue) (now : Int)
    (okO okC : Bool) :
    (createOrder st fs body now okO okC).state.orderIdCounter
      = if validPayload body then st.orderIdCounter + 1 else st.orderIdCounter := by
  rw [createOrder]
  by_cases h : validPayload body
  · rw [if_pos h, if_neg (by simp [h] : ¬ (!validPayload body) = true)]
    dsimp only
    split <;> rfl
  · rw [if_neg h, if_pos (by simp [h] : (!validPayload body) = true)]

/-- No request handler ever decreases the counter. -/
theorem step_counter_mono (st : ServerState) (fs : FileSystem) (op : Op) :
    st.orderIdCounter ≤ (step st fs op).1.orderIdCounter := by
  cases op with
  | create body now okO okC =>
    simp only [step, createOrder_counter]
    split <;> omega
  | update idParam body ok =>
    cases hrec : updateFirst (fun o => (o.getField "id").isNum idParam)
        (applyOrderUpdate body) st.orders with
    | none => simp [step, updateOrder, hrec]
    | some pr =>
      obtain ⟨orders1, u1⟩ := pr
      simp [step, updateOrder, hrec]
  | delete idParam ok =>
    cases hrec : removeFirst (fun o => (o.getField "id").isNum idParam) st.orders with
    | none => simp [step, deleteOrder, hrec]
    | some orders1 => simp [step, deleteOrder, hrec]
  | replaceCat body okP okB => simp [step, replaceCatalog]

/-- Every id allocated along a run is at least the counter the run starts
with. -/
theorem allocIds_lower_bound (ops : List Op) :
    ∀ st fs x, x ∈ allocIds st fs ops → st.orderIdCounter ≤ x := by
  induction ops with
  | nil => intro st fs x hx; simp [allocIds] at hx
  | cons op rest ih =>
    intro st fs x hx
    have hmono := step_counter_mono st fs op
    cases op with
    | create body now okO okC =>
      by_cases h : validPayload body
      · rw [allocIds] at hx
        simp only [h, if_true] at hx
        rcases List.mem_cons.mp hx with rfl | hx
        · exact le_refl _
        · exact le_trans hmono (ih _ _ x hx)
      · rw [allocIds] at hx
        simp only [h, if_false] at hx
        exact le_trans hmono (ih _ _ x hx)
    | update idParam body ok =>
      rw [allocIds] at hx
      exact le_trans hmono (ih _ _ x hx)
    | delete idParam ok =>
      rw [allocIds] at hx
      exact le_trans hmono (ih _ _ x hx)
    | replaceCat body okP okB =>
      rw [allocIds] at hx
      exact le_trans hmono (ih _ _ x hx)

/-- The id of the order literal is the counter it was built with. -/
theorem mkOrder_id (c now : Int) (body : JsValue) :
    (mkOrder c now body).getField "id" = .num c := rfl

/-- Every order is created with status Pending. -/
theorem mkOrder_status (c now : Int) (body : JsValue) :
    (mkOrder c now body).getField "status" = .str "Pending" := rfl

/-- The payment method of a created order is the one submitted, with the COD
sentinel as the or-else default. -/
theorem mkOrder_paymentMethod (c now : Int) (body : JsValue) :
    (mkOrder c now body).getField "paymentMethod"
      = (body.getField "paymentMethod").orElse (.str "COD") := rfl

/-- C1: along every request sequence (creations interleaved with updates,
deletions and catalog replacements, from any cache state), the ids allocated
by validation-passing createOrder calls are pairwise strictly increasing in
allocation order: each is strictly greater than every previously allocated
id, and no id is ever allocated twice, deletions notwithstanding, because a
deletion never touches the counter. -/
theorem createOrder_ids_strictly_increasing (st : ServerState) (fs : FileSystem)
    (ops : List Op) : (allocIds st fs ops).Pairwise (· < ·) := by
  induction ops generalizing st fs with
  | nil => simp [allocIds]
  | cons op rest ih =>
    cases op with
    | create body now okO okC =>
      by_cases h : validPayload body
      · rw [allocIds]
        simp only [h, if_true, List.pairwise_cons]
        refine ⟨?_, ih _ _⟩
        intro x hx
        have hlb := allocIds_lower_bound rest _ _ x hx
        have hcounter : (step st fs (.create body now okO okC)).1.orderIdCounter
            = st.orderIdCounter + 1 := by
          simp [step, createOrder_counter, h]
        omega
      · rw [allocIds]
        simp only [h, if_false]
        exact ih _ _
    | update idParam body ok => rw [allocIds]; exact ih _ _
    | delete idParam ok => rw [allocIds]; exact ih _ _
    | replaceCat body okP okB => rw [allocIds]; exact ih _ _

/-- C2: what initializeStorage actually does against a storage location with
none of the four backing files. listOrders is empty and the counter is 1001
as the claim says, but no built-in default catalog exists: the calls to the
never-defined getDefaultProducts raise a ReferenceError caught only by the
outer handler, so listCatalog yields two empty arrays, and neither
products.json, banners.json nor counter.json is created. -/
theorem initializeStorage_empty_storage :
    listOrders (initializeStorage emptyFS true true).state = [] ∧
    (initializeStorage emptyFS true true).state.orderIdCounter = 1001 ∧
    listCatalog (initializeStorage emptyFS true true).state = (.arr [], .arr []) ∧
    (initializeStorage emptyFS true true).refError = true ∧
    (initializeStorage emptyFS true true).fs.productsFile = none ∧
    (initializeStorage emptyFS true true).fs.bannersFile = none ∧
    (initializeStorage emptyFS true true).fs.counterFile = none :=
  ⟨rfl, rfl, rfl, rfl, rfl, rfl, rfl⟩

/-- C3: when the products file is missing (orders file present), the load
failure is not recovered by default-and-persist: initialization raises the
ReferenceError of the undefined getDefaultProducts, leaves the in-memory
products at the empty array with nothing written to disk, and never reaches
the banners and counter branches, so in-memory state and on-disk files
disagree after initialization. -/
theorem initializeStorage_load_failure_not_defaulted :
    (initializeStorage ⟨some [], none, none, none⟩ true true).refError = true ∧
    (initializeStorage ⟨some [], none, none, none⟩ true true).state.products = .arr [] ∧
    (initializeStorage ⟨some [], none, none, none⟩ true true).fs.productsFile = none ∧
    (initializeStorage ⟨some [], none, none, none⟩ true true).fs.bannersFile = none ∧
    (initializeStorage ⟨some [], none, none, none⟩ true true).fs.counterFile = none :=
  ⟨rfl, rfl, rfl, rfl, rfl⟩

/-- C4: the restart scenario violates the counter invariant. One order is
created with id 1001 (counter reaches 1002), its counter write fails while
the orders write succeeds; after the restart the loaded counter is back at
1001, which is not at least one more than the maximum allocated id 1001 that
the orders file preserved, and the counter has decreased across the restart:
the load reconciles nothing against the existing orders. -/
theorem counter_not_reconciled_after_restart :
    runBeforeRestart.state.orderIdCounter = 1002 ∧
    restartScenario.state.orderIdCounter = 1001 ∧
    maxOrderId restartScenario.state.orders = 1001 ∧
    ¬ (restartScenario.state.orderIdCounter ≥ maxOrderId restartScenario.state.orders + 1) :=
  ⟨rfl, rfl, rfl, by decide⟩

/-- C5 counterexample: a createOrder whose orders write fails answers
saveFailed, a response carrying no order at all, even though the order was
appended in memory; the claim that the created Order is still returned to
the caller is false on this input. -/
theorem createOrder_persist_failure_no_order_in_response :
    (createOrder initialState emptyFS orderBody 0 false true).result = .saveFailed ∧
    (∀ o, (createOrder initialState emptyFS orderBody 0 false true).result ≠ .created o) ∧
    (createOrder initialState emptyFS orderBody 0 false true).state.orders
      = [mkOrder 1001 0 orderBody] := by
  refine ⟨rfl, ?_, rfl⟩
  intro o h
  rw [show (createOrder initialState emptyFS orderBody 0 false true).result
      = .saveFailed from rfl] at h
  exact CreateResult.noConfusion h

/-- C5 as amended: when createOrder passes validation but either persist
fails, the route reports the failure without returning the created order,
while the appended order and the advanced counter stand in memory (no
rollback). -/
theorem createOrder_persist_failure_keeps_mutation (st : ServerState) (fs : FileSystem)
    (body : JsValue) (now : Int) (okO okC : Bool)
    (hvalid : validPayload body = true) (hfail : (okO && okC) = false) :
    (createOrder st fs body now okO okC).result = .saveFailed ∧
    (createOrder st fs body now okO okC).state.orders
      = st.orders ++ [mkOrder st.orderIdCounter now body] ∧
    (createOrder st fs body now okO okC).state.orderIdCounter = st.orderIdCounter + 1 := by
  have hso : ∀ s f, (saveOrders okO s f).1 = okO := by intro s f; cases okO <;> rfl
  have hsc : ∀ s f, (saveCounter okC s f).1 = okC := by intro s f; cases okC <;> rfl
  refine ⟨?_, ?_, ?_⟩ <;>
    rw [createOrder, if_neg (by simp [hvalid] : ¬ (!validPayload body) = true)] <;>
    dsimp only <;> rw [hso, hsc, hfail] <;> rfl

/-- C5 witness: the amended claim at the concrete scenario payload with a
failing orders write. -/
theorem createOrder_persist_failure_keeps_mutation_witness :
    validPayload orderBody = true ∧ ((false && true) = false) ∧
    ((createOrder initialState emptyFS orderBody 0 false true).result = .saveFailed ∧
     (createOrder initialState emptyFS orderBody 0 false true).state.orders
       = initialState.orders ++ [mkOrder initialState.orderIdCounter 0 orderBody] ∧
     (createOrder initialState emptyFS orderBody 0 false true).state.orderIdCounter
       = initialState.orderIdCounter + 1) :=
  ⟨rfl, rfl,
    createOrder_persist_failure_keeps_mutation initialState emptyFS orderBody 0 false true
      rfl rfl⟩

/-- C6: with the counter at 1001, a validation-passing submission without a
paymentMethod is created with id 1001, status Pending and payment method
COD, and an immediately following valid submission is created with id
1002. -/
theorem createOrder_scenario_first_and_second_id (st : ServerState) (fs : FileSystem)
    (body1 body2 : JsValue) (now1 now2 : Int)
    (hc : st.orderIdCounter = 1001)
    (h1 : validPayload body1 = true)
    (hpm : body1.getField "paymentMethod" = .undefined)
    (h2 : validPayload body2 = true) :
    ∃ o1 o2,
      (createOrder st fs body1 now1 true true).result = .created o1 ∧
      o1.getField "id" = .num 1001 ∧
      o1.getField "status" = .str "Pending" ∧
      o1.getField "paymentMethod" = .str "COD" ∧
      (createOrder (createOrder st fs body1 now1 true true).state
        (createOrder st fs body1 now1 true true).fs body2 now2 true true).result = .created o2 ∧
      o2.getField "id" = .num 1002 := by
  have hres1 : (createOrder st fs body1 now1 true true).result
      = .created (mkOrder st.orderIdCounter now1 body1) := by
    rw [createOrder, if_neg (by simp [h1] : ¬ (!validPayload body1) = true)]
    rfl
  have hst1 : (createOrder st fs body1 now1 true true).state.orderIdCounter
      = st.orderIdCounter + 1 := by
    rw [createOrder_counter, if_pos h1]
  have hres2 : (createOrder (createOrder st fs body1 now1 true true).state
      (createOrder st fs body1 now1 true true).fs body2 now2 true true).result
      = .created (mkOrder ((createOrder st fs body1 now1 true true).state.orderIdCounter)
          now2 body2) := by
    rw [createOrder, if_neg (by simp [h2] : ¬ (!validPayload body2) = true)]
    rfl
  refine ⟨mkOrder st.orderIdCounter now1 body1,
    mkOrder ((createOrder st fs body1 now1 true true).state.orderIdCounter) now2 body2,
    hres1, ?_, mkOrder_status .., ?_, hres2, ?_⟩
  · rw [mkOrder_id, hc]
  · rw [mkOrder_paymentMethod, hpm]
    rfl
  · rw [mkOrder_id, hst1, hc]
    norm_num

/-- C6 witness: the scenario at the concrete submission of the
specification, run twice from the initial cache. -/
theorem createOrder_scenario_first_and_second_id_witness :
    initialState.orderIdCounter = 1001 ∧ validPayload orderBody = true ∧
    orderBody.getField "paymentMethod" = .undefined ∧
    (∃ o1 o2,
      (createOrder initialState emptyFS orderBody 0 true true).result = .created o1 ∧
      o1.getField "id" = .num 1001 ∧
      o1.getField "status" = .str "Pending" ∧
      o1.getField "paymentMethod" = .str "COD" ∧
      (createOrder (createOrder initialState emptyFS orderBody 0 true true).state
        (createOrder initialState emptyFS orderBody 0 true true).fs orderBody 1 true
        true).result = .created o2 ∧
      o2.getField "id" = .num 1002) :=
  ⟨rfl, rfl, rfl,
    createOrder_scenario_first_and_second_id initialState emptyFS orderBody orderBody 0 1
      rfl rfl rfl rfl⟩

/-- C7: a submission in which customer, address or items is absent is
rejected with the validation error, and neither the cache (orders, catalog,
counter) nor the files change. -/
theorem createOrder_missing_field_rejected (st : ServerState) (fs : FileSystem)
    (body : JsValue) (now : Int) (okO okC : Bool)
    (h : body.getField "customer" = .undefined ∨ body.getField "address" = .undefined
      ∨ body.getField "items" = .undefined) :
    (createOrder st fs body now okO okC).result = .validationError ∧
    (createOrder st fs body now okO okC).state = st ∧
    (createOrder st fs body now okO okC).fs = fs := by
  have hv : validPayload body = false := by
    rcases h with h | h | h <;> simp [validPayload, h, JsValue.truthy]
  refine ⟨?_, ?_, ?_⟩ <;>
    rw [createOrder, if_pos (by simp [hv] : (!validPayload body) = true)]

/-- C7 witness: the specification scenario submission that carries only a
customer. -/
theorem createOrder_missing_field_rejected_witness :
    missingFieldBody.getField "address" = .undefined ∧
    ((createOrder initialState emptyFS missingFieldBody 0 true true).result
        = .validationError ∧
     (createOrder initialState emptyFS missingFieldBody 0 true true).state = initialState ∧
     (createOrder initialState emptyFS missingFieldBody 0 true true).fs = emptyFS) :=
  ⟨rfl,
    createOrder_missing_field_rejected initialState emptyFS missingFieldBody 0 true true
      (Or.inr (Or.inl rfl))⟩

/-- C8 counterexample: an update body that carries status as the empty
string. The status is provided (it is not undefined), yet the truthiness
guard of line 242 skips it: the order keeps status Pending instead of taking
the provided empty string, so updateOrder does not apply every provided
field. -/
theorem updateOrder_falsy_status_not_applied :
    (JsValue.obj [("status", .str "")]).getField "status" = .str "" ∧
    ((JsValue.obj [("status", .str "")]).getField "status").isUndefined = false ∧
    ∃ u, (updateOrder oneOrderState emptyFS 1001 (.obj [("status", .str "")]) true).result
        = .updated u ∧
      u.getField "status" = .str "Pending" ∧
      u.getField "status" ≠ .str "" := by
  refine ⟨rfl, rfl, mkOrder 1001 0 orderBody, rfl, rfl, ?_⟩
  rw [mkOrder_status]
  simp

/-- C8 as amended: when updateOrder finds the order, it applies status only
when the provided status is truthy and notes whenever the notes property is
not undefined; every other field of that order is unchanged, every other
order is untouched (the list changes at exactly one position), and products,
banners and the counter are unchanged. -/
theorem updateOrder_applies_only_status_and_notes (st : ServerState) (fs : FileSystem)
    (idParam : Int) (body : JsValue) (okSave : Bool) (u : JsValue)
    (h : (updateOrder st fs idParam body okSave).result = .updated u) :
    ∃ pre o post,
      st.orders = pre ++ o :: post ∧
      (updateOrder st fs idParam body okSave).state.orders = pre ++ u :: post ∧
      (∀ k, k ≠ "status" → k ≠ "notes" → u.getField k = o.getField k) ∧
      u.getField "status" = (if (body.getField "status").truthy then body.getField "status"
        else o.getField "status") ∧
      u.getField "notes" = (if (body.getField "notes").isUndefined then o.getField "notes"
        else body.getField "notes") ∧
      (updateOrder st fs idParam body okSave).state.products = st.products ∧
      (updateOrder st fs idParam body okSave).state.banners = st.banners ∧
      (updateOrder st fs idParam body okSave).state.orderIdCounter = st.orderIdCounter := by
  cases hrec : updateFirst (fun o => (o.getField "id").isNum idParam)
      (applyOrderUpdate body) st.orders with
  | none => simp [updateOrder, hrec] at h
  | some pr =>
    obtain ⟨orders1, u1⟩ := pr
    simp only [updateOrder, hrec, UpdateResult.updated.injEq] at h
    subst h
    obtain ⟨pre, o, post, e1, e2, e3, e4, e5⟩ :=
      updateFirst_some (fun o => (o.getField "id").isNum idParam)
        (applyOrderUpdate body) st.orders orders1 u1 hrec
    obtain ⟨fields, hobj⟩ := JsValue.obj_of_getField_isNum e4
    subst hobj
    refine ⟨pre, .obj fields, post, e1, ?_, ?_, ?_, ?_, ?_, ?_, ?_⟩
    · simp only [updateOrder, hrec]
      rw [e2, e3]
    · intro k hk1 hk2
      rw [e3, applyOrderUpdate_getField_other body _ k hk1 hk2]
    · rw [e3, applyOrderUpdate_status]
    · rw [e3, applyOrderUpdate_notes]
    · simp only [updateOrder, hrec]
    · simp only [updateOrder, hrec]
    · simp only [updateOrder, hrec]

/-- C8 witness: the Shipped update of the specification scenario on the
one-order cache. -/
theorem updateOrder_applies_only_status_and_notes_witness :
    ∃ pre o post,
      oneOrderState.orders = pre ++ o :: post ∧
      (updateOrder oneOrderState emptyFS 1001 shippedBody true).state.orders
        = pre ++ shippedOrder :: post ∧
      (∀ k, k ≠ "status" → k ≠ "notes" → shippedOrder.getField k = o.getField k) ∧
      shippedOrder.getField "status"
        = (if (shippedBody.getField "status").truthy then shippedBody.getField "status"
          else o.getField "status") ∧
      shippedOrder.getField "notes"
        = (if (shippedBody.getField "notes").isUndefined then o.getField "notes"
          else shippedBody.getField "notes") ∧
      (updateOrder oneOrderState emptyFS 1001 shippedBody true).state.products
        = oneOrderState.products ∧
      (updateOrder oneOrderState emptyFS 1001 shippedBody true).state.banners
        = oneOrderState.banners ∧
      (updateOrder oneOrderState emptyFS 1001 shippedBody true).state.orderIdCounter
        = oneOrderState.orderIdCounter :=
  updateOrder_applies_only_status_and_notes oneOrderState emptyFS 1001 shippedBody true
    shippedOrder rfl

/-- C9: replaceCatalog with product and banner arrays that serialization
leaves unchanged (every JSON.parse image is such), with both writes
succeeding, followed by a fresh initializeStorage against the resulting
storage, yields exactly that catalog from listCatalog, whatever the orders
and counter files hold. -/
theorem replaceCatalog_initializeStorage_roundtrip (st : ServerState) (fs : FileSystem)
    (ps bs : List JsValue) (okO okC : Bool)
    (hP : normalizeList ps = ps) (hB : normalizeList bs = bs) :
    listCatalog (initializeStorage
      (replaceCatalog st fs (.obj [("products", .arr ps), ("banners", .arr bs)]) true true).fs
      okO okC).state = (.arr ps, .arr bs) := by
  have hfs : (replaceCatalog st fs
        (.obj [("products", .arr ps), ("banners", .arr bs)]) true true).fs
      = { fs with productsFile := some (.arr ps), bannersFile := some (.arr bs) } := by
    rw [replaceCatalog]
    dsimp only
    simp [saveProducts, saveBanners, JsValue.orElse, JsValue.getField, lookupField,
      JsValue.truthy, JsValue.normalize, hP, hB]
  rw [hfs]
  rw [initializeStorage]
  cases ho : fs.ordersFile <;> cases hc : fs.counterFile <;> cases okO <;> cases okC <;>
    simp [ho, hc, saveOrders, saveCounter, listCatalog]

/-- C9 witness: the round trip at a one-product, one-banner catalog. -/
theorem replaceCatalog_initializeStorage_roundtrip_witness :
    normalizeList [JsValue.num 1] = [JsValue.num 1] ∧
    normalizeList [JsValue.str "b"] = [JsValue.str "b"] ∧
    listCatalog (initializeStorage
      (replaceCatalog initialState emptyFS
        (.obj [("products", .arr [JsValue.num 1]), ("banners", .arr [JsValue.str "b"])])
        true true).fs
      true true).state = (.arr [JsValue.num 1], .arr [JsValue.str "b"]) :=
  ⟨rfl, rfl,
    replaceCatalog_initializeStorage_roundtrip initialState emptyFS
      [JsValue.num 1] [JsValue.str "b"] true true rfl rfl⟩

/-- C10: the required-field check is exactly JavaScript truthiness of the
three properties, so a present but falsy customer, address or items (the
number 0, the empty string, false, null) is rejected as a validation error
just as an absent one, while a present empty items array is truthy and
accepted. -/
theorem createOrder_presence_check_is_truthiness (st : ServerState) (fs : FileSystem)
    (body : JsValue) (now : Int) (okO okC : Bool) :
    ((createOrder st fs body now okO okC).result = .validationError
      ↔ validPayload body = false) ∧
    JsValue.truthy (.num 0) = false ∧ JsValue.truthy (.str "") = false ∧
    JsValue.truthy (.bool false) = false ∧ JsValue.truthy .null = false ∧
    JsValue.truthy (.arr []) = true ∧
    validPayload (.obj [("customer", .obj [("fullName", .str "A")]),
      ("address", .obj []), ("items", .arr [])]) = true := by
  refine ⟨⟨?_, ?_⟩, rfl, rfl, rfl, rfl, rfl, rfl⟩
  · intro h
    cases hvb : validPayload body
    · rfl
    · rw [createOrder, if_neg (by simp [hvb] : ¬ (!validPayload body) = true)] at h
      dsimp only at h
      split at h <;> simp at h
  · intro hv
    rw [createOrder, if_pos (by simp [hv] : (!validPayload body) = true)]
